import Mathlib

/-!
# Verification of the EACA emotion capture/detection/cache core

A shallow embedding, in Lean 4, of the capture/detection/cache subsystem of
the EACA repository:

* `backend/services/face_services.py` — the per-frame classification function
  `detect_emotions_from_array` (confidence thresholding, the module-level
  smoothing buffer `emotion_buffer`, the mode computation);
* `backend/routers/emotion_face.py` — the background detection task
  `capture_and_detect_emotions`, the control endpoint
  `control_emotion_detection`, `stop_background_task`, the shared cache
  `latest_emotion_cache`, the poll endpoint `get_latest_emotion_data`,
  and the video-feed generator `generate_feed_frames`.

Python floats are modelled as exact rationals (`ℚ`); timestamps are
rationals.  Cooperative asyncio scheduling is modelled as an explicit
event-step machine: control-endpoint bodies are atomic (they contain no
`await`), and the background task is advanced one scheduling quantum at a
time, with quanta delimited by the task's `await` suspension points
(iteration boundaries of its frame loop and the in-iteration executor
call).  Nondeterministic environment outcomes (camera acquisition, frame
reads, classifier results, wall-clock time, Python `set` iteration order)
enter as explicit step inputs.
-/

namespace EACA

-- The library marks rational arithmetic irreducible; restore the default
-- reducibility so that concrete runs of the model evaluate under `decide`.
attribute [local semireducible] Rat.add Rat.sub Rat.mul Rat.inv

/-! ## `backend/services/face_services.py` -/

/-- One raw detection as returned by `detector.detect_emotions`: a bounding
box `d["box"]` and the emotion-score dict `d["emotions"]` (Python dicts are
insertion ordered, hence a list of pairs; a `none` score models a `None`
entry filtered out by the validity check). -/
structure RawDet where
  box : Nat × Nat × Nat × Nat
  emotions : List (String × Option ℚ)
  deriving Repr, DecidableEq

/-- One entry of the `faces` list built by `detect_emotions_from_array`:
`{"box": (x, y, w, h), "dominant_emotion": ..., "score": ...}`. -/
structure Face where
  box : Int × Int × Int × Int
  dominant_emotion : String
  score : ℚ
  deriving Repr, DecidableEq

/-- Constant `FRAME_WIDTH = 320` in `face_services.py`. -/
def FRAME_WIDTH : Nat := 320

/-- Constant `FRAME_HEIGHT = 240` in `face_services.py`. -/
def FRAME_HEIGHT : Nat := 240

/-- Constant `CONFIDENCE_THRESHOLD = 0.6` in `detect_emotions_from_array`. -/
def CONFIDENCE_THRESHOLD : ℚ := 6/10

/-- Python's `max(valid_emotions, key=valid_emotions.get)` over an
insertion-ordered dict: the first key attaining the maximal value (Python's
`max` replaces the running best only on a strictly greater key). -/
def pyMaxBySnd : List (String × ℚ) → Option (String × ℚ)
  | [] => none
  | p :: rest => some (rest.foldl (fun best q => if q.2 > best.2 then q else best) p)

/-- Python's `round(x, 2)`: round to two decimal places, halves to even
(Python 3 banker's rounding), modelled exactly on rationals. -/
def pyRound2 (q : ℚ) : ℚ :=
  let s : ℚ := q * 100
  let f : ℤ := ⌊s⌋
  let frac : ℚ := s - f
  let r : ℤ :=
    if frac < 1/2 then f
    else if frac > 1/2 then f + 1
    else if f % 2 = 0 then f else f + 1
  (r : ℚ) / 100

/-- Python's `int(a * b / m)` for nonnegative `a b`: true division then
truncation, i.e. the floor of the rational quotient.  Used for the
box-coordinate rescaling in `detect_emotions_from_array`. -/
def pyScale (a b m : Nat) : Int := ⌊((a * b : ℕ) : ℚ) / (m : ℚ)⌋

/-- The per-detection body of the `for d in detections or []:` loop of
`detect_emotions_from_array`, up to (but not including) the smoothing pass:
filter invalid scores, pick the dominant emotion by maximal score, round the
score to two decimals, downgrade to `("neutral", 0.0)` below
`CONFIDENCE_THRESHOLD`, and rescale the box to the original frame size
`origW × origH`.  `none` models the two `continue` paths (no emotions / no
valid scores). -/
def processDet (origW origH : Nat) (d : RawDet) : Option Face :=
  let valid := d.emotions.filterMap (fun p => p.2.map (fun v => (p.1, v)))
  match pyMaxBySnd valid with
  | none => none
  | some de =>
    let score := pyRound2 de.2
    let lab := if score < CONFIDENCE_THRESHOLD then "neutral" else de.1
    let score := if score < CONFIDENCE_THRESHOLD then 0 else score
    let (x, y, w, h) := d.box
    some { box := (pyScale x origW FRAME_WIDTH, pyScale y origH FRAME_HEIGHT,
                   pyScale w origW FRAME_WIDTH, pyScale h origH FRAME_HEIGHT),
           dominant_emotion := lab, score := score }

/-- Model of `emotion_buffer.append(x)` for the `deque(maxlen=5)`: append on the
right, dropping from the left beyond five entries. -/
def dequeAppend5 (buf : List String) (x : String) : List String :=
  let b := buf ++ [x]
  b.drop (b.length - 5)

/-- Python's `max(set(emotion_buffer), key=list(emotion_buffer).count)`.
`setOrder` is the iteration order of the Python set (hash dependent, hence
an explicit input of the model); the result is the first element of that
order attaining the maximal multiplicity in the buffer. -/
def pyMaxByCount (setOrder buf : List String) : Option String :=
  match setOrder with
  | [] => none
  | o :: os => some (os.foldl (fun best c => if buf.count c > buf.count best then c else best) o)

/-- Predicate: `setOrder` is a possible iteration order of `set(buf)`: an enumeration,
without repetition, of exactly the distinct elements of `buf`. -/
def IsSetOrder (setOrder buf : List String) : Prop :=
  setOrder.Nodup ∧ ∀ x, x ∈ setOrder ↔ x ∈ buf

/-- Body of `detect_emotions_from_array` from the `detections` stage onward (the
numpy preprocessing ahead of it only shapes the image and cannot alter the
returned candidates): build `faces` via `processDet`; if any face was kept,
append `faces[0]["dominant_emotion"]` to the smoothing buffer and, once the
buffer holds at least three entries, overwrite every face's
`dominant_emotion` with the buffer's most common label.  Returns the faces
list and the new buffer state (the Python function mutates the module-level
`emotion_buffer`). -/
def detectCore (buffer setOrder : List String) (origW origH : Nat)
    (dets : List RawDet) : List Face × List String :=
  match dets.filterMap (processDet origW origH) with
  | [] => ([], buffer)
  | f :: fs =>
    let buffer2 := dequeAppend5 buffer f.dominant_emotion
    if buffer2.length ≥ 3 then
      match pyMaxByCount setOrder buffer2 with
      | some mc => ((f :: fs).map (fun fc => { fc with dominant_emotion := mc }), buffer2)
      | none => (f :: fs, buffer2)
    else (f :: fs, buffer2)

/-- Function `detect_emotions_from_array` including its `try`/`except` around
`detector.detect_emotions`: an exception from the detector is printed and
turned into an empty faces list (the buffer is untouched).  The error type
is the exception's message, treated as opaque. -/
def detect_emotions_from_array (buffer setOrder : List String) (origW origH : Nat)
    (outcome : Except String (List RawDet)) : List Face × List String :=
  match outcome with
  | .error _ => ([], buffer)
  | .ok dets => detectCore buffer setOrder origW origH dets

/-! ## `backend/routers/emotion_face.py` — cache, background task, control -/

/-- Model of `latest_emotion_cache`: the module-level dict
`{"dominant_emotion", "score", "timestamp", "active"}`. -/
structure Cache where
  dominant_emotion : String
  score : ℚ
  timestamp : ℚ
  active : Bool
  deriving Repr, DecidableEq

/-- The cache's initial value at module load. -/
def cacheInit : Cache :=
  { dominant_emotion := "neutral", score := 0, timestamp := 0, active := false }

/-- Constant `CACHE_TIMEOUT = 10` seconds. -/
def CACHE_TIMEOUT : ℚ := 10

/-- Scheduling position of one `capture_and_detect_emotions` task instance,
one constructor per `await` suspension boundary:
* `created` — the task object exists (`asyncio.create_task`) but has not yet
  run its first quantum;
* `loopTop` — suspended at an iteration boundary of the `while` loop (the
  trailing `asyncio.sleep(1/15)`, or the `asyncio.sleep(0.1)` of a failed
  read), about to re-test `stop_event` and the capture handle;
* `detecting` — suspended in `loop.run_in_executor(..)`, awaiting the
  classifier's result for this cycle;
* `done` — the coroutine has returned (`task.done()` is true). -/
inductive TaskPC where
  | created
  | loopTop
  | detecting
  | done
  deriving Repr, DecidableEq

/-- One `capture_and_detect_emotions` task instance: its scheduling position
and its local `frame_count`. -/
structure TaskState where
  pc : TaskPC
  frame_count : Nat
  deriving Repr, DecidableEq

/-- The module-level mutable state of `emotion_face.py`: the cache, whether
the global `cap` handle is open, the `stop_event` flag, which task (if any)
the `background_task` variable refers to, every task instance ever created
(indexed by creation order), and the fresh-id counter. -/
structure Sys where
  cache : Cache
  capOpen : Bool
  stopEvent : Bool
  background_task : Option Nat
  tasks : List TaskState
  deriving Repr, DecidableEq

/-- The module state at load: inactive cache, no camera handle, clear stop
event, no background task. -/
def sysInit : Sys :=
  { cache := cacheInit, capOpen := false, stopEvent := false,
    background_task := none, tasks := [] }

/-- Default `skip_frames = 2`: classification runs on every second frame. -/
def skip_frames : Nat := 2

/-- Look up task `i`'s state (`none` when no such task was created). -/
def Sys.task? (s : Sys) (i : Nat) : Option TaskState := s.tasks[i]?

/-- Guard `background_task and not background_task.done()`: the guard used by
`control_emotion_detection` on both branches. -/
def Sys.bgLive (s : Sys) : Bool :=
  match s.background_task with
  | none => false
  | some i =>
    match s.tasks[i]? with
    | none => false
    | some t => t.pc != TaskPC.done

/-- A task instance of `s` that has been created (or started) and whose
coroutine has not returned. -/
def Sys.liveTasks (s : Sys) : List TaskState :=
  s.tasks.filter (fun t => t.pc != TaskPC.done)

/-- Number of live `capture_and_detect_emotions` instances — the number of
CaptureSessions in flight. -/
def Sys.liveCount (s : Sys) : Nat := s.liveTasks.length

/-- Replace task `i`'s state. -/
def Sys.setTask (s : Sys) (i : Nat) (t : TaskState) : Sys :=
  { s with tasks := s.tasks.set i t }

instance {ε α : Type} [DecidableEq ε] [DecidableEq α] : DecidableEq (Except ε α) :=
  fun a b =>
    match a, b with
    | .ok x, .ok y =>
      if h : x = y then .isTrue (by rw [h]) else .isFalse (by simp [h])
    | .error x, .error y =>
      if h : x = y then .isTrue (by rw [h]) else .isFalse (by simp [h])
    | .ok _, .error _ => .isFalse (by simp)
    | .error _, .ok _ => .isFalse (by simp)

/-- Environment outcomes consumed by one scheduling quantum of a background
task: whether `cv2.VideoCapture(0)` opens, whether `cap.read()` succeeds,
the classifier call's outcome (normal return or raised exception), and the
current wall-clock time `time.time()`. -/
structure TaskInput where
  acquireOk : Bool
  readOk : Bool
  outcome : Except String (List Face)
  now : ℚ
  deriving Repr, DecidableEq

/-- Model of `max(detected_faces, key=lambda f: f.get("score", 0))`: the first face
attaining the maximal score. -/
def pyMaxFace (f : Face) (fs : List Face) : Face :=
  fs.foldl (fun best q => if q.score > best.score then q else best) f

/-- The `finally:` block of `capture_and_detect_emotions`: release the
handle if open, mark the cache inactive with a fresh timestamp and clear
`stop_event`; the coroutine returns. -/
def taskFinally (s : Sys) (i : Nat) (t : TaskState) (now : ℚ) : Sys :=
  let s := if s.capOpen then { s with capOpen := false } else s
  let s := { s with cache := { s.cache with active := false, timestamp := now },
                    stopEvent := false }
  s.setTask i { t with pc := .done }

/-- One scheduling quantum of task `i` (`capture_and_detect_emotions`).
* From `created`: open the webcam unless the global `cap` is already open;
  on acquisition failure log, set `cache["active"] = False` and return
  (this `return` precedes the `try`, so the `finally` does not run).
  Otherwise set `frame_count = 0`, `active = True`, `timestamp = now` and
  enter the loop.
* From `loopTop`: re-test `stop_event` / the handle; if stopping, run the
  `finally`.  Otherwise read a frame: a failed read logs, sleeps `0.1` and
  `continue`s (`frame_count` untouched); a successful read either enters the
  executor call (every `skip_frames`-th frame) or just advances
  `frame_count` and sleeps.
* From `detecting`: fold the classifier outcome into the cache — best face
  by score on a non-empty list, timestamp-only refresh on an empty list,
  `{"neutral", 0.0, now}` on an exception — then advance `frame_count` and
  sleep until the next iteration.
A quantum for a `done` (or non-existent) task is a no-op. -/
def taskStep (s : Sys) (i : Nat) (inp : TaskInput) : Sys :=
  match s.task? i with
  | none => s
  | some t =>
    match t.pc with
    | .done => s
    | .created =>
      if s.capOpen then
        let s := { s with cache := { s.cache with active := true, timestamp := inp.now } }
        s.setTask i { t with pc := .loopTop, frame_count := 0 }
      else if inp.acquireOk then
        let s := { s with capOpen := true,
                          cache := { s.cache with active := true, timestamp := inp.now } }
        s.setTask i { t with pc := .loopTop, frame_count := 0 }
      else
        let s := { s with cache := { s.cache with active := false } }
        s.setTask i { t with pc := .done }
    | .loopTop =>
      if s.stopEvent || !s.capOpen then
        taskFinally s i t inp.now
      else if !inp.readOk then
        s
      else if t.frame_count % skip_frames = 0 then
        s.setTask i { t with pc := .detecting }
      else
        s.setTask i { t with pc := .loopTop, frame_count := t.frame_count + 1 }
    | .detecting =>
      let s :=
        match inp.outcome with
        | .ok [] =>
          { s with cache := { s.cache with timestamp := inp.now } }
        | .ok (f :: fs) =>
          let best := pyMaxFace f fs
          { s with cache := { s.cache with dominant_emotion := best.dominant_emotion,
                                           score := best.score, timestamp := inp.now } }
        | .error _ =>
          { s with cache := { s.cache with dominant_emotion := "neutral",
                                           score := 0, timestamp := inp.now } }
      s.setTask i { t with pc := .loopTop, frame_count := t.frame_count + 1 }

/-- Function `stop_background_task()`: set `stop_event`, drop the `background_task`
reference (the task itself is only signalled, not cancelled) and mark the
cache inactive. -/
def stop_background_task (s : Sys) : Sys :=
  { s with stopEvent := true, background_task := none,
           cache := { s.cache with active := false } }

/-- Endpoint `control_emotion_detection(active=True)`: if the background task exists
and is not done, reply "already active"; otherwise clear `stop_event`,
create a fresh task (initially suspended at `created`) and reply
"starting".  The handler body contains no `await`, so it is one atomic
step. -/
def controlStart (s : Sys) : Sys × String :=
  if s.bgLive then
    (s, "Emotion detection already active.")
  else
    let i := s.tasks.length
    ({ s with stopEvent := false,
              tasks := s.tasks ++ [{ pc := .created, frame_count := 0 }],
              background_task := some i },
     "Emotion detection starting.")

/-- Endpoint `control_emotion_detection(active=False)`: if the background task exists
and is not done, signal it and reply "stopping"; otherwise still run
`stop_background_task()` (for cleanup) and reply "already inactive". -/
def controlStop (s : Sys) : Sys × String :=
  if s.bgLive then
    (stop_background_task s, "Emotion detection stopping.")
  else
    (stop_background_task s, "Emotion detection already inactive.")

/-- The reply of `GET /api/emotion/latest`. -/
structure LatestReply where
  dominant_emotion : String
  score : ℚ
  active : Bool
  stale : Bool
  deriving Repr, DecidableEq

/-- Endpoint `get_latest_emotion_data()`: staleness is computed at read time as
`(time.time() - timestamp) > CACHE_TIMEOUT`; an inactive or stale cache
reads as `{"neutral", 0.0}` with the actual `active` and `stale` flags,
otherwise the cached label and score are returned. -/
def get_latest_emotion_data (c : Cache) (now : ℚ) : LatestReply :=
  let is_stale : Bool := decide (now - c.timestamp > CACHE_TIMEOUT)
  if !c.active || is_stale then
    { dominant_emotion := "neutral", score := 0, active := c.active, stale := is_stale }
  else
    { dominant_emotion := c.dominant_emotion, score := c.score,
      active := c.active, stale := is_stale }

/-- One externally observable event: a control call, or one scheduling
quantum of background task `i`.  (`GET /api/emotion/latest` is read-only
and `generate_feed_frames` never writes this state, so neither affects
reachability.) -/
inductive Ev where
  | start
  | stop
  | task (i : Nat) (inp : TaskInput)
  deriving Repr, DecidableEq

/-- Apply one event. -/
def stepEv (s : Sys) (e : Ev) : Sys :=
  match e with
  | .start => (controlStart s).1
  | .stop => (controlStop s).1
  | .task i inp => taskStep s i inp

/-- Run a trace of events from a state. -/
def run (s : Sys) (evs : List Ev) : Sys := evs.foldl stepEv s

/-! ## The video-feed generator `generate_feed_frames` -/

/-- Scheduling position of one `generate_feed_frames` generator instance,
relative to its frame loop:
* `top` — about to test the capture handle, read a frame and (on success)
  yield it to the HTTP consumer;
* `afterEmit` — a frame has just been yielded; the generator is suspended in
  `yield`/`asyncio.sleep(1/30)` and will test `stop_event` when resumed;
* `done` — the loop has been left (`break`), the `finally` ran. -/
inductive FeedPC where
  | top
  | afterEmit
  | done
  deriving Repr, DecidableEq

/-- One quantum of `generate_feed_frames`: `stop` is the current value of
the shared `stop_event`, `readOk` tells whether the handle is open and
`local_cap.read()` succeeded.  The returned `Nat` counts frames emitted by
this quantum (0 or 1).  From `top` a successful read yields one frame and
suspends; a failed read breaks out of the loop.  From `afterEmit` the
generator checks `stop_event` and either breaks or starts the next
iteration.  The overlay drawn on the frame reads the cache but writes
nothing, so it does not appear in this state. -/
def feedStep (stop readOk : Bool) : FeedPC → FeedPC × Nat
  | .top => if readOk then (.afterEmit, 1) else (.done, 0)
  | .afterEmit => if stop then (.done, 0) else (.top, 0)
  | .done => (.done, 0)

/-- Run `generate_feed_frames` quanta under a constant `stop_event` value,
one list entry (the read outcome) per quantum; returns the final position
and the total number of frames emitted. -/
def runFeed (stop : Bool) (pc : FeedPC) : List Bool → FeedPC × Nat
  | [] => (pc, 0)
  | r :: rest =>
    let st := feedStep stop r pc
    let k := runFeed stop st.1 rest
    (k.1, st.2 + k.2)

/-! ## Concrete traces and inputs used below -/

/-- One quantum's input with acquisition and read succeeding and an empty
classification result at time 1. -/
def benignInput : TaskInput := { acquireOk := true, readOk := true, outcome := .ok [], now := 1 }

/-- A quantum input whose `cap.read()` fails (at a successful, open
session). -/
def readFailInput : TaskInput := { acquireOk := true, readOk := false, outcome := .ok [], now := 1 }

/-- A quantum input whose `cv2.VideoCapture(0)` acquisition fails. -/
def acquireFailInput : TaskInput := { acquireOk := false, readOk := true, outcome := .ok [], now := 1 }

/-- A running session: `start` followed by the task's first quantum with a
successful camera acquisition. -/
def runningSys : Sys := run sysInit [Ev.start, Ev.task 0 benignInput]

/-- The running session after `n` further consecutive failed-read quanta. -/
def runningAfterReadFails (n : Nat) : Sys :=
  run runningSys (List.replicate n (Ev.task 0 readFailInput))

/-- Trace for the stop/start race: start a session, let it complete one
quantum (camera acquired, loop entered, suspended in its pacing sleep),
stop it, immediately start again — `control_emotion_detection` sees
`background_task = None`, clears `stop_event` and spawns a second task —
and let the new task run its first quantum.  The first task never observed
the stop signal: it was cleared before its sleep elapsed. -/
def stopStartRace : List Ev :=
  [Ev.start, Ev.task 0 benignInput, Ev.stop, Ev.start,
   Ev.task 1 { benignInput with now := 2 }]

/-- Trace reaching a classification cycle that follows a confident one: the
session starts, classifies a `happy` face with score `0.9`, paces two
frames, and arrives at the next classification cycle. -/
def confidentThenEmpty : List Ev :=
  [Ev.start, Ev.task 0 benignInput, Ev.task 0 benignInput,
   Ev.task 0 { benignInput with
                 outcome := .ok [{ box := (0, 0, 0, 0), dominant_emotion := "happy",
                                   score := 9/10 }], now := 2 },
   Ev.task 0 { benignInput with now := 2 },
   Ev.task 0 { benignInput with now := 2 }]

/-! ## Helper lemmas -/

/-- A failed-read quantum (`ret` falsy: log, `asyncio.sleep(0.1)`,
`continue`) leaves the whole module state unchanged — no counter is kept,
nothing escalates. -/
theorem taskStep_readFail (s : Sys) (i : Nat) (t : TaskState) (inp : TaskInput)
    (ht : s.task? i = some t) (hpc : t.pc = TaskPC.loopTop)
    (hstop : s.stopEvent = false) (hcap : s.capOpen = true)
    (hr : inp.readOk = false) : taskStep s i inp = s := by
  simp [taskStep, ht, hpc, hstop, hcap, hr]

/-- Any number of consecutive failed-read quanta leave the module state
unchanged. -/
theorem run_readFail_replicate (s : Sys) (i : Nat) (t : TaskState) (inp : TaskInput)
    (ht : s.task? i = some t) (hpc : t.pc = TaskPC.loopTop)
    (hstop : s.stopEvent = false) (hcap : s.capOpen = true)
    (hr : inp.readOk = false) :
    ∀ n : Nat, run s (List.replicate n (Ev.task i inp)) = s := by
  intro n
  induction n with
  | zero => rfl
  | succ n ih =>
    rw [List.replicate_succ]
    show run (stepEv s (Ev.task i inp)) _ = s
    rw [show stepEv s (Ev.task i inp) = s from taskStep_readFail s i t inp ht hpc hstop hcap hr]
    exact ih

/-- When every created task is done, the system holds no live session. -/
theorem allDone_of_liveCount_zero (s : Sys) (h : s.liveCount = 0) :
    ∀ t ∈ s.tasks, t.pc = TaskPC.done := by
  intro t htmem
  have hnil : s.liveTasks = [] := List.length_eq_zero.mp h
  have := (List.filter_eq_nil_iff.mp hnil) t htmem
  simpa using this

/-- With no live session, the `background_task and not done()` guard is
false. -/
theorem bgLive_false_of_liveCount_zero (s : Sys) (h : s.liveCount = 0) :
    s.bgLive = false := by
  unfold Sys.bgLive
  cases hb : s.background_task with
  | none => rfl
  | some i =>
    cases hti : s.tasks[i]? with
    | none => simp [hti]
    | some t =>
      have := allDone_of_liveCount_zero s h t (List.getElem?_mem hti)
      simp [hti, this]

/-- With no live session, a task quantum cannot change `stop_event` (every
task is done, so its quantum is a no-op). -/
theorem taskStep_stopEvent_of_liveCount_zero (s : Sys) (h : s.liveCount = 0)
    (i : Nat) (inp : TaskInput) : (taskStep s i inp).stopEvent = s.stopEvent := by
  unfold taskStep Sys.task?
  cases hti : s.tasks[i]? with
  | none => rfl
  | some t =>
    have hd := allDone_of_liveCount_zero s h t (List.getElem?_mem hti)
    simp [hd]

/-- A stopped feed generator stays stopped and emits nothing. -/
theorem runFeed_done (l : List Bool) : runFeed true FeedPC.done l = (FeedPC.done, 0) := by
  induction l with
  | nil => rfl
  | cons r rest ih => simp [runFeed, feedStep, ih]

/-- A feed generator suspended just after a `yield`, with the stop signal
set, emits nothing more and is gone as soon as it is resumed. -/
theorem runFeed_afterEmit (l : List Bool) :
    (runFeed true FeedPC.afterEmit l).2 = 0 ∧
    (l ≠ [] → (runFeed true FeedPC.afterEmit l).1 = FeedPC.done) := by
  cases l with
  | nil => exact ⟨rfl, fun h => absurd rfl h⟩
  | cons r rest => simp [runFeed, feedStep, runFeed_done]

/-- A feed generator at its loop top, with the stop signal set, emits at
most one more frame and is gone within two quanta. -/
theorem runFeed_top (l : List Bool) :
    (runFeed true FeedPC.top l).2 ≤ 1 ∧
    (2 ≤ l.length → (runFeed true FeedPC.top l).1 = FeedPC.done) := by
  cases l with
  | nil => exact ⟨by simp [runFeed], by simp⟩
  | cons r rest =>
    by_cases hr : r
    · subst hr
      have h2 := runFeed_afterEmit rest
      constructor
      · simp [runFeed, feedStep, h2.1]
      · intro hl
        have hne : rest ≠ [] := by
          cases rest with
          | nil => simp at hl
          | cons a l => exact List.cons_ne_nil a l
        simp [runFeed, feedStep, h2.2 hne]
    · simp at hr
      subst hr
      simp [runFeed, feedStep, runFeed_done]

/-! ## Claim C1 — acquisition failure during start -/

/-- C1, counterexample.  The claim says a failed camera acquisition during
`start()` surfaces `DeviceUnavailable` synchronously to the caller of
`start`.  It does not: `control_emotion_detection(active=True)` replies
`"Emotion detection starting."` before the spawned task ever attempts
`cv2.VideoCapture(0)`; when that acquisition then fails, the task only
logs, sets `active=False` and returns — its reply cannot change and no
error reaches the start caller.  Concretely: from the initial state, the
start call replies "starting", and the subsequent failing acquisition
quantum leaves `active=false` with the task finished. -/
theorem start_reply_fixed_before_acquire :
    (controlStart sysInit).2 = "Emotion detection starting." ∧
    (taskStep (controlStart sysInit).1 0 acquireFailInput).cache.active = false ∧
    (taskStep (controlStart sysInit).1 0 acquireFailInput).task? 0 =
      some { pc := TaskPC.done, frame_count := 0 } := by
  refine ⟨by decide, by decide, by decide⟩

/-- C1, amended claim: when `start()` is called with no live task and no
open handle, the caller receives `"Emotion detection starting."`; if the
spawned task's camera acquisition then fails, the cache is left
`active=false` and the session never enters the running loop (the task
finishes directly) — but the failure is only logged, never surfaced to the
`start` caller. -/
theorem acquire_failure_silent (s : Sys) (inp : TaskInput)
    (hbg : s.bgLive = false) (hcap : s.capOpen = false)
    (hacq : inp.acquireOk = false) :
    (controlStart s).2 = "Emotion detection starting." ∧
    (taskStep (controlStart s).1 s.tasks.length inp).cache.active = false ∧
    (taskStep (controlStart s).1 s.tasks.length inp).task? s.tasks.length =
      some { pc := TaskPC.done, frame_count := 0 } := by
  have hget : (s.tasks ++ [({ pc := TaskPC.created, frame_count := 0 } : TaskState)])[s.tasks.length]?
      = some { pc := TaskPC.created, frame_count := 0 } :=
    List.getElem?_concat_length _ _
  have hlt : s.tasks.length < (s.tasks ++ [({ pc := TaskPC.created, frame_count := 0 } : TaskState)]).length := by
    simp
  refine ⟨by simp [controlStart, hbg], ?_, ?_⟩ <;>
    simp [controlStart, hbg, taskStep, Sys.task?, hget, hcap, hacq, Sys.setTask,
          List.getElem?_set_self hlt]

/-- Witness for `acquire_failure_silent` at the initial state. -/
theorem acquire_failure_silent_witness :
    (controlStart sysInit).2 = "Emotion detection starting." ∧
    (taskStep (controlStart sysInit).1 sysInit.tasks.length acquireFailInput).cache.active = false ∧
    (taskStep (controlStart sysInit).1 sysInit.tasks.length acquireFailInput).task? sysInit.tasks.length =
      some { pc := TaskPC.done, frame_count := 0 } :=
  acquire_failure_silent sysInit acquireFailInput (by decide) (by decide) (by decide)

/-! ## Claim C2 — at most one CaptureSession -/

/-- C2, counterexample.  The claim asserts at most one CaptureSession in
every state reachable by any interleaving of start and stop calls.  The
trace `stopStartRace` refutes it: stop signals the running task and drops
the `background_task` reference without awaiting the task; the immediately
following start sees `background_task = None`, clears `stop_event` and
spawns a second task.  The first task, still suspended in its pacing
sleep, finds `stop_event` cleared when it resumes and keeps looping — two
live `capture_and_detect_emotions` instances coexist. -/
theorem two_live_sessions_reachable :
    (run sysInit stopStartRace).liveCount = 2 ∧
    ¬ (∀ evs : List Ev, (run sysInit evs).liveCount ≤ 1) :=
  ⟨by decide, fun h => absurd (h stopStartRace) (by decide)⟩

/-- C2, amended claim: calling start while the background task is live is
an idempotent no-op returning "already active" (so start-start without an
intervening stop yields exactly one live session); the at-most-one-session
property is not preserved by stop-then-start interleavings that outrun the
running task (see `two_live_sessions_reachable`). -/
theorem start_twice_single_session (s : Sys) (h : s.bgLive = true) :
    controlStart s = (s, "Emotion detection already active.") ∧
    (run sysInit [Ev.start, Ev.start]).liveCount = 1 ∧
    (controlStart (run sysInit [Ev.start])).2 = "Emotion detection already active." :=
  ⟨by simp [controlStart, h], by decide, by decide⟩

/-- Witness for `start_twice_single_session` right after a first start. -/
theorem start_twice_single_session_witness :
    controlStart (run sysInit [Ev.start]) =
      (run sysInit [Ev.start], "Emotion detection already active.") ∧
    (run sysInit [Ev.start, Ev.start]).liveCount = 1 ∧
    (controlStart (run sysInit [Ev.start])).2 = "Emotion detection already active." :=
  start_twice_single_session (run sysInit [Ev.start]) (by decide)

/-! ## Claim C3 — empty classification cycle -/

/-- C3, counterexample.  The claim says a cycle with zero candidates writes
`{neutral, 0.0}` to the cache.  It does not: the `else` branch of
`capture_and_detect_emotions` refreshes only the timestamp, retaining the
previous cycle's label and score.  Concretely: after the trace
`confidentThenEmpty` (a `happy`/0.9 cycle, then pacing to the next
classification cycle), an empty-candidate quantum leaves the cache at
`happy`/0.9 with only the timestamp advanced. -/
theorem empty_cycle_retains_label :
    (run sysInit confidentThenEmpty).task? 0 = some { pc := TaskPC.detecting, frame_count := 2 } ∧
    (run sysInit confidentThenEmpty).cache =
      { dominant_emotion := "happy", score := 9/10, timestamp := 2, active := true } ∧
    (taskStep (run sysInit confidentThenEmpty) 0
        { benignInput with outcome := .ok [], now := 3 }).cache =
      { dominant_emotion := "happy", score := 9/10, timestamp := 3, active := true } :=
  ⟨by decide, by decide, by decide⟩

/-- C3, amended claim: on a classification cycle whose candidate list is
empty, only the cache's timestamp is refreshed to the current time; label,
score and active flag all retain their previous values. -/
theorem empty_cycle_timestamp_only (s : Sys) (i : Nat) (t : TaskState) (inp : TaskInput)
    (ht : s.task? i = some t) (hpc : t.pc = TaskPC.detecting)
    (hout : inp.outcome = Except.ok []) :
    (taskStep s i inp).cache.dominant_emotion = s.cache.dominant_emotion ∧
    (taskStep s i inp).cache.score = s.cache.score ∧
    (taskStep s i inp).cache.timestamp = inp.now ∧
    (taskStep s i inp).cache.active = s.cache.active := by
  simp [taskStep, ht, hpc, hout, Sys.setTask]

/-- Witness for `empty_cycle_timestamp_only` at the state reached by
`confidentThenEmpty`. -/
theorem empty_cycle_timestamp_only_witness :
    (taskStep (run sysInit confidentThenEmpty) 0
        { benignInput with outcome := .ok [], now := 3 }).cache.dominant_emotion =
      (run sysInit confidentThenEmpty).cache.dominant_emotion ∧
    (taskStep (run sysInit confidentThenEmpty) 0
        { benignInput with outcome := .ok [], now := 3 }).cache.score =
      (run sysInit confidentThenEmpty).cache.score ∧
    (taskStep (run sysInit confidentThenEmpty) 0
        { benignInput with outcome := .ok [], now := 3 }).cache.timestamp = 3 ∧
    (taskStep (run sysInit confidentThenEmpty) 0
        { benignInput with outcome := .ok [], now := 3 }).cache.active =
      (run sysInit confidentThenEmpty).cache.active :=
  empty_cycle_timestamp_only (run sysInit confidentThenEmpty) 0
    { pc := TaskPC.detecting, frame_count := 2 }
    { benignInput with outcome := .ok [], now := 3 } (by decide) rfl rfl

/-! ## Claim C5 — consecutive read-failure threshold -/

/-- C5, counterexample.  The claim asserts a finite threshold `T` of
consecutive frame-read failures after which the loop stops.  No such
threshold exists: a failed `cap.read()` only logs, sleeps 0.1 s and
`continue`s — no failure counter is kept, and any number of consecutive
failures leaves the session live (indeed leaves the whole state
unchanged). -/
theorem no_read_failure_threshold :
    ¬ ∃ T : Nat, 0 < T ∧ (runningAfterReadFails T).liveCount = 0 := by
  rintro ⟨T, -, hT⟩
  rw [show runningAfterReadFails T = runningSys from
        run_readFail_replicate runningSys 0 { pc := TaskPC.loopTop, frame_count := 0 }
          readFailInput (by decide) rfl (by decide) (by decide) rfl T] at hT
  exact absurd hT (by decide)

/-- C5, amended claim: a transient frame-read failure in the running loop
is logged, backed off from (0.1 s sleep) and retried, leaving the module
state unchanged; there is no consecutive-failure threshold — any number of
consecutive read failures leaves the loop running. -/
theorem read_failures_never_stop (s : Sys) (i : Nat) (t : TaskState) (inp : TaskInput)
    (ht : s.task? i = some t) (hpc : t.pc = TaskPC.loopTop)
    (hstop : s.stopEvent = false) (hcap : s.capOpen = true)
    (hr : inp.readOk = false) (n : Nat) :
    taskStep s i inp = s ∧ run s (List.replicate n (Ev.task i inp)) = s :=
  ⟨taskStep_readFail s i t inp ht hpc hstop hcap hr,
   run_readFail_replicate s i t inp ht hpc hstop hcap hr n⟩

/-- Witness for `read_failures_never_stop`: seven consecutive read failures
in a freshly started session change nothing. -/
theorem read_failures_never_stop_witness :
    taskStep runningSys 0 readFailInput = runningSys ∧
    run runningSys (List.replicate 7 (Ev.task 0 readFailInput)) = runningSys :=
  read_failures_never_stop runningSys 0 { pc := TaskPC.loopTop, frame_count := 0 }
    readFailInput (by decide) rfl (by decide) (by decide) rfl 7

/-! ## Claim C6 — stale or inactive reads -/

/-- C6 (confirmed): every `latest()` read computes staleness at read time
as `(now - timestamp) > CACHE_TIMEOUT`, and a stale or inactive cache reads
as label `neutral`, score `0.0`, with the actual `active` and `stale`
flags — never the last stored real value. -/
theorem latest_stale_or_inactive_reads_neutral (c : Cache) (now : ℚ)
    (h : c.active = false ∨ now - c.timestamp > CACHE_TIMEOUT) :
    get_latest_emotion_data c now =
      { dominant_emotion := "neutral", score := 0, active := c.active,
        stale := decide (now - c.timestamp > CACHE_TIMEOUT) } := by
  unfold get_latest_emotion_data
  rcases h with h | h
  · simp [h]
  · simp [h]

/-- Witness for `latest_stale_or_inactive_reads_neutral`: an active cache
holding `happy`/0.9 written at time 0 reads as neutral at time 20. -/
theorem latest_stale_reads_neutral_witness :
    get_latest_emotion_data
      { dominant_emotion := "happy", score := mkRat 9 10, timestamp := 0, active := true } 20 =
      { dominant_emotion := "neutral", score := 0, active := true, stale := true } := by
  have h := latest_stale_or_inactive_reads_neutral
    { dominant_emotion := "happy", score := mkRat 9 10, timestamp := 0, active := true } 20
    (Or.inr (by decide))
  simpa using h

/-! ## Claim C7 — stop when idle -/

/-- C7 (confirmed): calling `stop()` with no live session is a total
operation (the model's `controlStop` is a function — nothing raises), it
replies "already inactive", still runs `stop_background_task()` and leaves
the cache `active=false`. -/
theorem stop_when_idle_marks_inactive (s : Sys) (h : s.bgLive = false) :
    (controlStop s).2 = "Emotion detection already inactive." ∧
    (controlStop s).1.cache.active = false ∧
    (controlStop s).1 = stop_background_task s := by
  simp [controlStop, h, stop_background_task]

/-- Witness for `stop_when_idle_marks_inactive` at the initial state. -/
theorem stop_when_idle_marks_inactive_witness :
    (controlStop sysInit).2 = "Emotion detection already inactive." ∧
    (controlStop sysInit).1.cache.active = false ∧
    (controlStop sysInit).1 = stop_background_task sysInit :=
  stop_when_idle_marks_inactive sysInit (by decide)

/-! ## Claim C8 — adapter exceptions absorbed per cycle -/

/-- C8 (confirmed): an exception escaping the classifier call on a
classification cycle — any exception value — is caught by the loop's
`except` and converted to the neutral/0.0 result for that cycle (the same
cache write a single `{neutral, 0.0}` candidate would produce); it never
propagates (the quantum is a total function) and the task returns to its
loop top with the frame counter advanced, so subsequent cycles run. -/
theorem adapter_exception_neutral_cycle (s : Sys) (i : Nat) (t : TaskState)
    (inp : TaskInput) (msg : String)
    (ht : s.task? i = some t) (hpc : t.pc = TaskPC.detecting)
    (hout : inp.outcome = Except.error msg) :
    (taskStep s i inp).cache.dominant_emotion = "neutral" ∧
    (taskStep s i inp).cache.score = 0 ∧
    (taskStep s i inp).cache.timestamp = inp.now ∧
    (taskStep s i inp).cache.active = s.cache.active ∧
    (taskStep s i inp).task? i =
      some { pc := TaskPC.loopTop, frame_count := t.frame_count + 1 } := by
  have ht2 : s.tasks[i]? = some t := ht
  have hi : i < s.tasks.length := (List.getElem?_eq_some_iff.mp ht2).1
  refine ⟨?_, ?_, ?_, ?_, ?_⟩ <;>
    simp [taskStep, Sys.task?, ht2, hpc, hout, Sys.setTask, List.getElem?_set_self hi]

/-- Witness for `adapter_exception_neutral_cycle` at a session's first
classification cycle with exception message "boom". -/
theorem adapter_exception_neutral_cycle_witness :
    (taskStep (run sysInit [Ev.start, Ev.task 0 benignInput, Ev.task 0 benignInput]) 0
        { benignInput with outcome := .error "boom", now := 5 }).cache.dominant_emotion = "neutral" ∧
    (taskStep (run sysInit [Ev.start, Ev.task 0 benignInput, Ev.task 0 benignInput]) 0
        { benignInput with outcome := .error "boom", now := 5 }).cache.score = 0 ∧
    (taskStep (run sysInit [Ev.start, Ev.task 0 benignInput, Ev.task 0 benignInput]) 0
        { benignInput with outcome := .error "boom", now := 5 }).cache.timestamp = 5 ∧
    (taskStep (run sysInit [Ev.start, Ev.task 0 benignInput, Ev.task 0 benignInput]) 0
        { benignInput with outcome := .error "boom", now := 5 }).cache.active =
      (run sysInit [Ev.start, Ev.task 0 benignInput, Ev.task 0 benignInput]).cache.active ∧
    (taskStep (run sysInit [Ev.start, Ev.task 0 benignInput, Ev.task 0 benignInput]) 0
        { benignInput with outcome := .error "boom", now := 5 }).task? 0 =
      some { pc := TaskPC.loopTop, frame_count := 1 } :=
  adapter_exception_neutral_cycle
    (run sysInit [Ev.start, Ev.task 0 benignInput, Ev.task 0 benignInput]) 0
    { pc := TaskPC.detecting, frame_count := 0 }
    { benignInput with outcome := .error "boom", now := 5 } "boom" (by decide) rfl rfl

/-! ## Claim C4 — smoothing buffer and mode -/

/-- Helper: with a non-empty face list and a non-empty set order,
`detectCore` reduces to the explicit push/mode form. -/
theorem detectCore_eq_of_raw (buffer : List String) (o : String) (os : List String)
    (origW origH : Nat) (dets : List RawDet) (f : Face) (fs : List Face)
    (hraw : dets.filterMap (processDet origW origH) = f :: fs) :
    detectCore buffer (o :: os) origW origH dets =
      (let buffer2 := dequeAppend5 buffer f.dominant_emotion
       if buffer2.length ≥ 3 then
         ((f :: fs).map (fun fc =>
            { fc with dominant_emotion :=
                os.foldl (fun best c =>
                  if buffer2.count c > buffer2.count best then c else best) o }), buffer2)
       else (f :: fs, buffer2)) := by
  unfold detectCore
  rw [hraw]
  rfl

/-- C4, counterexample.  The claim says each cycle's winning
(maximum-confidence) label is pushed into the smoothing buffer.  The code
pushes `faces[0]["dominant_emotion"]` — the first detected face — instead:
on a frame with a first face `happy`/0.7 and a second face `sad`/0.9, the
cycle's winner (chosen by the loop via max score) is `sad`, yet the buffer
receives `happy`. -/
theorem first_face_pushed_not_winner :
    (detectCore [] ["happy"] 640 480
      [{ box := (0, 0, 10, 10), emotions := [("happy", some (mkRat 7 10))] },
       { box := (0, 0, 10, 10), emotions := [("sad", some (mkRat 9 10))] }]) =
    ([{ box := (0, 0, 20, 20), dominant_emotion := "happy", score := 7/10 },
      { box := (0, 0, 20, 20), dominant_emotion := "sad", score := 9/10 }], ["happy"]) ∧
    pyMaxFace { box := (0, 0, 20, 20), dominant_emotion := "happy", score := 7/10 }
      [{ box := (0, 0, 20, 20), dominant_emotion := "sad", score := 9/10 }] =
      { box := (0, 0, 20, 20), dominant_emotion := "sad", score := 9/10 } ∧
    "sad" ∉ (["happy"] : List String) :=
  ⟨by decide, by decide, by decide⟩

/-- C4, amended claim: on every cycle with at least one kept candidate, the
label pushed into the smoothing buffer is the FIRST candidate's
(post-threshold) label, not necessarily the maximum-confidence one; once
the buffer (capacity 5) holds at least three entries, every returned
candidate's label — hence the published one — is replaced by the most
common label of the whole buffer, ties resolved by the Python set's
iteration order (first maximal element of `setOrder`), while every
candidate's confidence score is left unsmoothed. -/
theorem smoothing_mode_of_buffer (buffer setOrder : List String)
    (origW origH : Nat) (dets : List RawDet) (f : Face) (fs : List Face)
    (hraw : dets.filterMap (processDet origW origH) = f :: fs)
    (hord : setOrder ≠ []) :
    (detectCore buffer setOrder origW origH dets).2 =
      dequeAppend5 buffer f.dominant_emotion ∧
    (detectCore buffer setOrder origW origH dets).1.map Face.score =
      (f :: fs).map Face.score ∧
    (3 ≤ (dequeAppend5 buffer f.dominant_emotion).length →
      ∃ mc, pyMaxByCount setOrder (dequeAppend5 buffer f.dominant_emotion) = some mc ∧
        (detectCore buffer setOrder origW origH dets).1.map Face.dominant_emotion =
          (f :: fs).map (fun _ => mc)) ∧
    ((dequeAppend5 buffer f.dominant_emotion).length < 3 →
      (detectCore buffer setOrder origW origH dets).1 = f :: fs) := by
  obtain ⟨o, os, rfl⟩ : ∃ o os, setOrder = o :: os := by
    cases setOrder with
    | nil => exact absurd rfl hord
    | cons a l => exact ⟨a, l, rfl⟩
  rw [detectCore_eq_of_raw buffer o os origW origH dets f fs hraw]
  by_cases h3 : 3 ≤ (dequeAppend5 buffer f.dominant_emotion).length
  · refine ⟨by simp [h3], ?_, ?_, ?_⟩
    · simp [h3, List.map_map, Function.comp_def]
    · intro _
      exact ⟨_, rfl, by simp [h3, List.map_map, Function.comp_def]⟩
    · intro hlt
      omega
  · refine ⟨by simp [h3], by simp [h3], ?_, by simp [h3]⟩
    intro h3'
    exact absurd h3' h3

/-- Witness for `smoothing_mode_of_buffer`: a single `sad`/0.65 candidate
arriving on a buffer already holding `["happy", "happy"]` is pushed as the
first face's label, and the published label becomes the buffer's most
common entry `happy` while the score stays 0.65. -/
theorem smoothing_mode_of_buffer_witness :
    (detectCore ["happy", "happy"] ["happy", "sad"] 640 480
        [{ box := (0, 0, 10, 10), emotions := [("sad", some (mkRat 65 100))] }]).2 =
      dequeAppend5 ["happy", "happy"] "sad" ∧
    (detectCore ["happy", "happy"] ["happy", "sad"] 640 480
        [{ box := (0, 0, 10, 10), emotions := [("sad", some (mkRat 65 100))] }]).1.map Face.score =
      ([{ box := (0, 0, 20, 20), dominant_emotion := "sad", score := mkRat 65 100 }] : List Face).map Face.score ∧
    (3 ≤ (dequeAppend5 ["happy", "happy"] "sad").length →
      ∃ mc, pyMaxByCount ["happy", "sad"] (dequeAppend5 ["happy", "happy"] "sad") = some mc ∧
        (detectCore ["happy", "happy"] ["happy", "sad"] 640 480
            [{ box := (0, 0, 10, 10), emotions := [("sad", some (mkRat 65 100))] }]).1.map Face.dominant_emotion =
          ([{ box := (0, 0, 20, 20), dominant_emotion := "sad", score := mkRat 65 100 }] : List Face).map (fun _ => mc)) ∧
    ((dequeAppend5 ["happy", "happy"] "sad").length < 3 →
      (detectCore ["happy", "happy"] ["happy", "sad"] 640 480
          [{ box := (0, 0, 10, 10), emotions := [("sad", some (mkRat 65 100))] }]).1 =
        [{ box := (0, 0, 20, 20), dominant_emotion := "sad", score := mkRat 65 100 }]) :=
  smoothing_mode_of_buffer ["happy", "happy"] ["happy", "sad"] 640 480
    [{ box := (0, 0, 10, 10), emotions := [("sad", some (mkRat 65 100))] }]
    { box := (0, 0, 20, 20), dominant_emotion := "sad", score := mkRat 65 100 } []
    (by decide) (by decide)

/-! ## Claim C9 — confidence floor -/

/-- Helper: every face kept by the per-detection loop has its rounded score
at or above the 0.6 threshold, or was downgraded to score 0. -/
theorem processDet_score_floor (origW origH : Nat) (d : RawDet) (f : Face)
    (h : processDet origW origH d = some f) :
    CONFIDENCE_THRESHOLD ≤ f.score ∨ f.score = 0 := by
  obtain ⟨⟨x, y, w, z⟩, em⟩ := d
  simp only [processDet] at h
  cases hm : pyMaxBySnd (em.filterMap (fun p => p.2.map (fun v => (p.1, v)))) with
  | none => rw [hm] at h; exact absurd h (by simp)
  | some de =>
    rw [hm] at h
    simp only [Option.some.injEq] at h
    by_cases hlt : pyRound2 de.2 < CONFIDENCE_THRESHOLD
    · right
      rw [← h]
      simp [hlt]
    · left
      rw [← h]
      simpa [hlt] using le_of_not_lt hlt

/-- Helper: every face returned by `detectCore` carries the score of some
face of the pre-smoothing list (smoothing rewrites only labels). -/
theorem detectCore_score_from_raw (buffer setOrder : List String)
    (origW origH : Nat) (dets : List RawDet) (f : Face)
    (hf : f ∈ (detectCore buffer setOrder origW origH dets).1) :
    ∃ g ∈ dets.filterMap (processDet origW origH), f.score = g.score := by
  unfold detectCore at hf
  revert hf
  cases hraw : dets.filterMap (processDet origW origH) with
  | nil => intro hf; simp at hf
  | cons g gs =>
    intro hf
    dsimp only at hf
    by_cases h3 : (dequeAppend5 buffer g.dominant_emotion).length ≥ 3
    · rw [if_pos h3] at hf
      cases hmc : pyMaxByCount setOrder (dequeAppend5 buffer g.dominant_emotion) with
      | none => rw [hmc] at hf; exact ⟨f, hf, rfl⟩
      | some mc =>
        rw [hmc] at hf
        dsimp only at hf
        obtain ⟨g', hg', hfg⟩ := List.mem_map.mp hf
        exact ⟨g', hg', by rw [← hfg]⟩
    · rw [if_neg h3] at hf
      exact ⟨f, hf, rfl⟩

/-- C9, counterexample.  The claim says every candidate returned by
`detect_emotions_from_array` has score ≥ 0.6 or is `neutral` with score 0,
so no non-neutral label below 0.6 is ever published.  The smoothing pass
breaks it: a `sad`/0.5 face is first downgraded to `neutral`/0.0, but with
the module buffer holding `["happy", "happy"]` the appended `"neutral"`
brings the buffer to three entries, whose most common label `happy` then
overwrites the face — the function returns a `happy` candidate with score
0.0, and the loop's best-face selection publishes exactly that value.
(`["happy", "neutral"]` is a legitimate iteration order of the buffer's
set, and the mode is unique here, so every order yields `happy`.) -/
theorem smoothed_label_below_threshold :
    (detectCore ["happy", "happy"] ["happy", "neutral"] 640 480
        [{ box := (0, 0, 10, 10), emotions := [("sad", some (mkRat 1 2))] }]).1 =
      [{ box := (0, 0, 20, 20), dominant_emotion := "happy", score := 0 }] ∧
    IsSetOrder ["happy", "neutral"] ["happy", "happy", "neutral"] ∧
    ("happy" : String) ≠ "neutral" ∧ (0 : ℚ) < CONFIDENCE_THRESHOLD ∧
    pyMaxFace { box := (0, 0, 20, 20), dominant_emotion := "happy", score := 0 } [] =
      { box := (0, 0, 20, 20), dominant_emotion := "happy", score := 0 } := by
  refine ⟨by decide, ⟨by decide, ?_⟩, by decide, by decide, rfl⟩
  intro x
  constructor <;> intro hx <;> simp at hx ⊢ <;> tauto

/-- C9, amended claim: every candidate returned by
`detect_emotions_from_array` has score ≥ 0.6 or score exactly 0.0 (the
fixed 0.6 threshold zeroes the score of low-confidence detections), but the
accompanying label is not guaranteed to be `neutral`: the smoothing pass
may overwrite it with the buffer's most common label, so a non-neutral
label with score below 0.6 can be published. -/
theorem score_floor_or_zero (buffer setOrder : List String) (origW origH : Nat)
    (outcome : Except String (List RawDet)) (f : Face)
    (hf : f ∈ (detect_emotions_from_array buffer setOrder origW origH outcome).1) :
    CONFIDENCE_THRESHOLD ≤ f.score ∨ f.score = 0 := by
  cases outcome with
  | error msg => simp [detect_emotions_from_array] at hf
  | ok dets =>
    simp only [detect_emotions_from_array] at hf
    obtain ⟨g, hg, hsc⟩ := detectCore_score_from_raw buffer setOrder origW origH dets f hf
    obtain ⟨d, -, hd⟩ := List.mem_filterMap.mp hg
    rw [hsc]
    exact processDet_score_floor origW origH d g hd

/-- Witness for `score_floor_or_zero` on the counterexample input: the
returned `happy` candidate's score is 0. -/
theorem score_floor_or_zero_witness :
    CONFIDENCE_THRESHOLD ≤ (Face.score
      { box := (0, 0, 20, 20), dominant_emotion := "happy", score := 0 }) ∨
    (Face.score { box := (0, 0, 20, 20), dominant_emotion := "happy", score := 0 }) = 0 :=
  score_floor_or_zero ["happy", "happy"] ["happy", "neutral"] 640 480
    (.ok [{ box := (0, 0, 10, 10), emotions := [("sad", some (mkRat 1 2))] }])
    { box := (0, 0, 20, 20), dominant_emotion := "happy", score := 0 } (by decide)

/-! ## Claim C10 — stop signal and feed termination -/

/-- C10 (confirmed): every `stop()` call sets the shared `stop_event` —
also when no session is live; with no live session the signal then stays
set (a done task's quantum is a no-op, further stops keep it set) until
the next `start()` clears it; and a feed generator running while the
signal is set emits at most one more frame and reaches its exit within
two quanta. -/
theorem stop_sets_signal_feed_halts (s : Sys) (pc : FeedPC) (inputs : List Bool) :
    (controlStop s).1.stopEvent = true ∧
    (s.liveCount = 0 → ∀ i inp, (taskStep s i inp).stopEvent = s.stopEvent) ∧
    (s.liveCount = 0 → (controlStart s).1.stopEvent = false) ∧
    (runFeed true pc inputs).2 ≤ 1 ∧
    (2 ≤ inputs.length → (runFeed true pc inputs).1 = FeedPC.done) := by
  refine ⟨?_, ?_, ?_, ?_, ?_⟩
  · by_cases h : s.bgLive <;> simp [controlStop, h, stop_background_task]
  · intro h0 i inp
    exact taskStep_stopEvent_of_liveCount_zero s h0 i inp
  · intro h0
    simp [controlStart, bgLive_false_of_liveCount_zero s h0]
  · cases pc with
    | top => exact (runFeed_top inputs).1
    | afterEmit => simp [(runFeed_afterEmit inputs).1]
    | done => simp [runFeed_done]
  · intro h2
    cases pc with
    | top => exact (runFeed_top inputs).2 h2
    | afterEmit =>
      refine (runFeed_afterEmit inputs).2 ?_
      intro hnil
      rw [hnil] at h2
      simp at h2
    | done => simp [runFeed_done]

/-- Witness for `stop_sets_signal_feed_halts`: a stop at the initial state
sets the signal; with the signal set and no live task a quantum keeps it
set and a start clears it; a feed at its loop top with three more read
quanta emits one frame and halts. -/
theorem stop_sets_signal_feed_halts_witness :
    (controlStop sysInit).1.stopEvent = true ∧
    (taskStep { sysInit with stopEvent := true } 0 benignInput).stopEvent =
      ({ sysInit with stopEvent := true } : Sys).stopEvent ∧
    (controlStart { sysInit with stopEvent := true }).1.stopEvent = false ∧
    (runFeed true FeedPC.top [true, true, true]).2 ≤ 1 ∧
    (runFeed true FeedPC.top [true, true, true]).1 = FeedPC.done := by
  obtain ⟨-, b, c, d, e⟩ :=
    stop_sets_signal_feed_halts { sysInit with stopEvent := true } FeedPC.top [true, true, true]
  exact ⟨(stop_sets_signal_feed_halts sysInit FeedPC.top [true, true, true]).1,
         b (by decide) 0 benignInput, c (by decide), d, e (by decide)⟩

end EACA
